import Mathlib

/-!
Shallow embedding of the vincenty Go package (starboard-nz/vincenty),
file vincenty.go: the Inverse geodesic solver and the Distance unit
accessors.  The algorithm is written over an abstract record of
double-precision operations, so that every arithmetic step of the Go
source maps one-to-one onto an operation of the record; concrete
instances (exact rationals, and rationals extended with an absorbing
NaN element) are used to evaluate the embedding on concrete inputs.
-/

namespace Vincenty

/-- Abstract record of the float64 operations used by vincenty.go.
lit injects a decimal literal of the source; pi stands for math.Pi;
beq and blt are the float comparison operators == and < of Go. -/
structure Ops (α : Type) where
  lit : ℚ → α
  pi : α
  add : α → α → α
  sub : α → α → α
  mul : α → α → α
  div : α → α → α
  sin : α → α
  cos : α → α
  tan : α → α
  atan : α → α
  atan2 : α → α → α
  sqrt : α → α
  abs : α → α
  round : α → α
  beq : α → α → Bool
  blt : α → α → Bool

/-- LatLng represents a point on Earth defined by its Latitude and Longitude
(vincenty.go, type LatLng). -/
structure LatLng (α : Type) where
  Latitude : α
  Longitude : α

/-- radians converts degrees to radians: degrees * math.Pi / 180.0
(vincenty.go, func radians). -/
def radians {α : Type} (ops : Ops α) (degrees : α) : α :=
  ops.div (ops.mul degrees ops.pi) (ops.lit 180)

/-- square f = f * f (vincenty.go, func square). -/
def square {α : Type} (ops : Ops α) (f : α) : α :=
  ops.mul f f

/-- Semi-major axis a = 6378137.0 meters (WGS 84). -/
def aConst {α : Type} (ops : Ops α) : α := ops.lit 6378137

/-- Flattening f = 1.0 / 298.257223563 (WGS 84), computed by division as in
the source. -/
def fConst {α : Type} (ops : Ops α) : α :=
  ops.div (ops.lit 1) (ops.lit (298257223563 / 1000000000))

/-- Semi-minor axis b = 6356752.314245 meters (WGS 84). -/
def bConst {α : Type} (ops : Ops α) : α := ops.lit (6356752314245 / 1000000)

/-- ConvergenceThreshold = 1e-12 (vincenty.go). -/
def convThreshold {α : Type} (ops : Ops α) : α := ops.lit (1 / 1000000000000)

/-- The quantities computed before the loop of Inverse and used inside it:
sin and cos of the reduced latitudes U1 and U2, and the longitude
difference L in radians. -/
structure Env (α : Type) where
  sinU1 : α
  cosU1 : α
  sinU2 : α
  cosU2 : α
  L : α

/-- mkEnv performs the pre-loop computation of Inverse (vincenty.go lines
86-94): U1 = atan((1-f)tan(radians lat1)), U2 likewise for lat2,
L = radians(lon2 - lon1), and the four sines/cosines. -/
def mkEnv {α : Type} (ops : Ops α) (point1 point2 : LatLng α) : Env α :=
  let f := fConst ops
  let U1 := ops.atan (ops.mul (ops.sub (ops.lit 1) f) (ops.tan (radians ops point1.Latitude)))
  let U2 := ops.atan (ops.mul (ops.sub (ops.lit 1) f) (ops.tan (radians ops point2.Latitude)))
  let L := radians ops (ops.sub point2.Longitude point1.Longitude)
  { sinU1 := ops.sin U1
    cosU1 := ops.cos U1
    sinU2 := ops.sin U2
    cosU2 := ops.cos U2
    L := L }

/-- sinSigma as computed at the top of each loop iteration (vincenty.go
line 99): sqrt(square(cosU2 sinLambda) + square(cosU1 sinU2 - sinU1 cosU2 cosLambda)). -/
def sinSigmaOf {α : Type} (ops : Ops α) (env : Env α) (Lambda : α) : α :=
  ops.sqrt (ops.add
    (square ops (ops.mul env.cosU2 (ops.sin Lambda)))
    (square ops (ops.sub (ops.mul env.cosU1 env.sinU2)
      (ops.mul (ops.mul env.sinU1 env.cosU2) (ops.cos Lambda)))))

/-- cosSigma = sinU1 sinU2 + cosU1 cosU2 cosLambda (vincenty.go line 103). -/
def cosSigmaOf {α : Type} (ops : Ops α) (env : Env α) (Lambda : α) : α :=
  ops.add (ops.mul env.sinU1 env.sinU2)
    (ops.mul (ops.mul env.cosU1 env.cosU2) (ops.cos Lambda))

/-- sinAlpha = cosU1 cosU2 sinLambda / sinSigma (vincenty.go line 105). -/
def sinAlphaOf {α : Type} (ops : Ops α) (env : Env α) (Lambda : α) : α :=
  ops.div (ops.mul (ops.mul env.cosU1 env.cosU2) (ops.sin Lambda))
    (sinSigmaOf ops env Lambda)

/-- cosSqAlpha = 1 - square(sinAlpha) (vincenty.go line 106). -/
def cosSqAlphaOf {α : Type} (ops : Ops α) (env : Env α) (Lambda : α) : α :=
  ops.sub (ops.lit 1) (square ops (sinAlphaOf ops env Lambda))

/-- The cos2SigmaM value: initialised to 0.0 and only overwritten with
cosSigma - 2 sinU1 sinU2 / cosSqAlpha when cosSqAlpha is nonzero
(vincenty.go lines 107-110). -/
def cos2SigmaMOf {α : Type} (ops : Ops α) (env : Env α) (Lambda : α) : α :=
  if ops.beq (cosSqAlphaOf ops env Lambda) (ops.lit 0) then ops.lit 0
  else ops.sub (cosSigmaOf ops env Lambda)
    (ops.div (ops.mul (ops.mul (ops.lit 2) env.sinU1) env.sinU2)
      (cosSqAlphaOf ops env Lambda))

/-- Outcome of one loop iteration: either the function returns a Distance,
or the loop continues with the updated Lambda. -/
inductive StepResult (α : Type) where
  | ret : α → StepResult α
  | next : α → StepResult α

/-- isRet tells whether a step outcome is a return. -/
def StepResult.isRet {α : Type} : StepResult α → Bool
  | .ret _ => true
  | .next _ => false

/-- One iteration of the loop of Inverse (vincenty.go lines 96-124):
compute sinSigma and return 0 when it is zero; otherwise update Lambda by
the Vincenty correction formula; on convergence
(|Lambda - LambdaPrev| < 1e-12) compute the series coefficients A, B,
deltaSigma and return the rounded arc length, else continue. -/
def vStep {α : Type} (ops : Ops α) (env : Env α) (Lambda : α) : StepResult α :=
  let f := fConst ops
  let sinSigma := sinSigmaOf ops env Lambda
  if ops.beq sinSigma (ops.lit 0) then
    .ret (ops.lit 0)
  else
    let cosSigma := cosSigmaOf ops env Lambda
    let sigma := ops.atan2 sinSigma cosSigma
    let cosSqAlpha := cosSqAlphaOf ops env Lambda
    let cos2SigmaM := cos2SigmaMOf ops env Lambda
    let C := ops.mul (ops.mul (ops.div f (ops.lit 16)) cosSqAlpha)
      (ops.add (ops.lit 4) (ops.mul f (ops.sub (ops.lit 4) (ops.mul (ops.lit 3) cosSqAlpha))))
    let LambdaPrev := Lambda
    let Lambda' := ops.add env.L
      (ops.mul (ops.mul (ops.mul (ops.sub (ops.lit 1) C) f) (sinAlphaOf ops env Lambda))
        (ops.add sigma (ops.mul (ops.mul C sinSigma)
          (ops.add cos2SigmaM (ops.mul (ops.mul C cosSigma)
            (ops.add (ops.lit (-1)) (ops.mul (ops.lit 2) (square ops cos2SigmaM))))))))
    if ops.blt (ops.abs (ops.sub Lambda' LambdaPrev)) (convThreshold ops) then
      let uSq := ops.div
        (ops.mul cosSqAlpha (ops.sub (square ops (aConst ops)) (square ops (bConst ops))))
        (square ops (bConst ops))
      let A := ops.add (ops.lit 1) (ops.mul (ops.div uSq (ops.lit 16384))
        (ops.add (ops.lit 4096) (ops.mul uSq
          (ops.add (ops.lit (-768)) (ops.mul uSq
            (ops.sub (ops.lit 320) (ops.mul (ops.lit 175) uSq)))))))
      let B := ops.mul (ops.div uSq (ops.lit 1024))
        (ops.add (ops.lit 256) (ops.mul uSq
          (ops.add (ops.lit (-128)) (ops.mul uSq
            (ops.sub (ops.lit 74) (ops.mul (ops.lit 47) uSq))))))
      let deltaSigma := ops.mul (ops.mul B sinSigma)
        (ops.add cos2SigmaM (ops.mul (ops.div B (ops.lit 4))
          (ops.sub
            (ops.mul cosSigma (ops.add (ops.lit (-1)) (ops.mul (ops.lit 2) (square ops cos2SigmaM))))
            (ops.mul (ops.mul (ops.mul (ops.div B (ops.lit 6)) cos2SigmaM)
              (ops.add (ops.lit (-3)) (ops.mul (ops.lit 4) (square ops sinSigma))))
              (ops.add (ops.lit (-3)) (ops.mul (ops.lit 4) (square ops cos2SigmaM)))))))
      let s := ops.mul (ops.mul (bConst ops) A) (ops.sub sigma deltaSigma)
      let s' := ops.div (ops.round (ops.mul s (ops.lit 1000))) (ops.lit 1000)
      .ret s'
    else
      .next Lambda'

/-- The loop of Inverse with the remaining iteration budget as fuel: when
the budget is exhausted the function falls through to return
Distance(-1.0) (vincenty.go line 125). -/
def vLoop {α : Type} (ops : Ops α) (env : Env α) : Nat → α → α
  | 0, _ => ops.lit (-1)
  | Nat.succ n, Lambda =>
    match vStep ops env Lambda with
    | .ret d => d
    | .next l => vLoop ops env n l

/-- Inverse with MaxIterations as a parameter: the bit-for-bit equality
short circuit (vincenty.go lines 82-84), then the pre-loop computation and
the iteration loop starting from Lambda = L. -/
def InverseFuel {α : Type} (ops : Ops α) (MaxIterations : Nat)
    (point1 point2 : LatLng α) : α :=
  if ops.beq point1.Latitude point2.Latitude && ops.beq point1.Longitude point2.Longitude then
    ops.lit 0
  else
    let env := mkEnv ops point1 point2
    vLoop ops env MaxIterations env.L

/-- Inverse calculates the distance between two points on the surface of a
spheroid using Vincenty formula, inverse method (vincenty.go, func
Inverse), with MaxIterations = 200. -/
def Inverse {α : Type} (ops : Ops α) (point1 point2 : LatLng α) : α :=
  InverseFuel ops 200 point1 point2

/-- Number of loop iterations executed by vLoop before it returns (an
iteration that returns counts as executed). -/
def vLoopIters {α : Type} (ops : Ops α) (env : Env α) : Nat → α → Nat
  | 0, _ => 0
  | Nat.succ n, Lambda =>
    match vStep ops env Lambda with
    | .ret _ => 1
    | .next l => vLoopIters ops env n l + 1

/-- Number of loop iterations executed by Inverse: zero on the
short-circuit path, otherwise the iterations of the 200-bounded loop. -/
def InverseIters {α : Type} (ops : Ops α) (point1 point2 : LatLng α) : Nat :=
  if ops.beq point1.Latitude point2.Latitude && ops.beq point1.Longitude point2.Longitude then
    0
  else
    let env := mkEnv ops point1 point2
    vLoopIters ops env 200 env.L

/-- Iterating vStep with fuel, keeping a return as a return and otherwise
the last Lambda. -/
def iterSteps {α : Type} (ops : Ops α) (env : Env α) : Nat → α → StepResult α
  | 0, Lambda => .next Lambda
  | Nat.succ n, Lambda =>
    match vStep ops env Lambda with
    | .ret d => .ret d
    | .next l => iterSteps ops env n l

/-- Metres returns the Distance d in metres (vincenty.go). -/
def Metres {α : Type} (d : α) : α := d

/-- Meters also returns the Distance d in metres, but in US English. -/
def Meters {α : Type} (d : α) : α := d

/-- Kilometres returns the Distance d in kilometres. -/
def Kilometres {α : Type} (ops : Ops α) (d : α) : α := ops.div d (ops.lit 1000)

/-- Kilometers also returns the Distance d in kilometres, but in US English. -/
def Kilometers {α : Type} (ops : Ops α) (d : α) : α := ops.div d (ops.lit 1000)

/-- NauticalMiles returns the Distance d in nautical miles. -/
def NauticalMiles {α : Type} (ops : Ops α) (d : α) : α := ops.div d (ops.lit 1852)

/-- Miles returns the Distance d in miles. -/
def Miles {α : Type} (ops : Ops α) (d : α) : α := ops.div d (ops.lit (1609344 / 1000))

/-- Feet returns the Distance d in feet. -/
def Feet {α : Type} (ops : Ops α) (d : α) : α := ops.div d (ops.lit (3048 / 10000))

/-- Pointwise lift of a rational function to rationals extended with an
absorbing NaN element (modelled as none). -/
def liftNaN (g : ℚ → ℚ) : Option ℚ → Option ℚ
  | none => none
  | some q => some (g q)

/-- Lift of a binary rational function: any NaN operand gives NaN. -/
def liftNaN2 (g : ℚ → ℚ → ℚ) : Option ℚ → Option ℚ → Option ℚ
  | some x, some y => some (g x y)
  | _, _ => none

/-- A concrete executable operation record over rationals extended with a
NaN element: arithmetic propagates NaN and every comparison involving NaN
is false, exactly as for IEEE-754 NaN; the transcendental functions are
computable rational stand-ins (their values never reach the properties
proved with this model, which concern only control flow and NaN
propagation). -/
def fpOps : Ops (Option ℚ) where
  lit q := some q
  pi := some (355 / 113)
  add := liftNaN2 (· + ·)
  sub := liftNaN2 (· - ·)
  mul := liftNaN2 (· * ·)
  div := liftNaN2 (· / ·)
  sin := liftNaN id
  cos := liftNaN id
  tan := liftNaN id
  atan := liftNaN id
  atan2 := liftNaN2 (fun x _ => x)
  sqrt := liftNaN id
  abs := liftNaN (fun q => |q|)
  round := liftNaN (fun q => ((round q : ℤ) : ℚ))
  beq x y :=
    match x, y with
    | some a, some b => decide (a = b)
    | _, _ => false
  blt x y :=
    match x, y with
    | some a, some b => decide (a < b)
    | _, _ => false

/-- The IEEE-754 NaN laws used by the algorithm, stated for an abstract
operation record: a distinguished element nan absorbs the arithmetic
operations and the unary functions, and makes both comparisons false. -/
structure NanOps {α : Type} (ops : Ops α) (nan : α) : Prop where
  beqnl : ∀ x, ops.beq nan x = false
  beqnr : ∀ x, ops.beq x nan = false
  bltnl : ∀ x, ops.blt nan x = false
  addnl : ∀ x, ops.add nan x = nan
  addnr : ∀ x, ops.add x nan = nan
  subnl : ∀ x, ops.sub nan x = nan
  subnr : ∀ x, ops.sub x nan = nan
  mulnl : ∀ x, ops.mul nan x = nan
  mulnr : ∀ x, ops.mul x nan = nan
  divnl : ∀ x, ops.div nan x = nan
  divnr : ∀ x, ops.div x nan = nan
  sinn : ops.sin nan = nan
  cosn : ops.cos nan = nan
  tann : ops.tan nan = nan
  atann : ops.atan nan = nan
  sqrtn : ops.sqrt nan = nan
  absn : ops.abs nan = nan

/-- The concrete NaN model satisfies the NaN laws. -/
theorem fpOps_nanOps : NanOps fpOps none := by
  constructor <;> first
    | rfl
    | (intro x; cases x <;> rfl)

/-- When cosU1 or cosU2 is NaN, sinSigma is NaN at every iteration. -/
theorem sinSigmaOf_nan_env {α : Type} {ops : Ops α} {nan : α} (h : NanOps ops nan)
    (env : Env α) (Lambda : α) (hc : env.cosU1 = nan ∨ env.cosU2 = nan) :
    sinSigmaOf ops env Lambda = nan := by
  unfold sinSigmaOf square
  rcases hc with hc | hc <;> rw [hc]
  · rw [h.mulnl, h.subnl, h.mulnl, h.addnr, h.sqrtn]
  · rw [h.mulnl, h.mulnl, h.addnl, h.sqrtn]

/-- When Lambda is NaN, sinSigma is NaN. -/
theorem sinSigmaOf_nan_lambda {α : Type} {ops : Ops α} {nan : α} (h : NanOps ops nan)
    (env : Env α) : sinSigmaOf ops env nan = nan := by
  unfold sinSigmaOf square
  rw [h.sinn, h.mulnr, h.mulnl, h.addnl, h.sqrtn]

/-- When sinSigma is NaN, a loop iteration neither returns nor converges:
the sinSigma == 0 test and the convergence test are both false on NaN, and
the updated Lambda is NaN. -/
theorem vStep_nan {α : Type} {ops : Ops α} {nan : α} (h : NanOps ops nan)
    (env : Env α) (Lambda : α) (hs : sinSigmaOf ops env Lambda = nan) :
    vStep ops env Lambda = .next nan := by
  have ha : sinAlphaOf ops env Lambda = nan := by
    unfold sinAlphaOf
    rw [hs, h.divnr]
  simp only [vStep]
  rw [hs, h.beqnl]
  simp only [Bool.false_eq_true, if_false]
  rw [ha, h.mulnr, h.mulnl, h.addnr, h.subnl, h.absn, h.bltnl]
  simp only [Bool.false_eq_true, if_false]

/-- If every iteration continues with a NaN Lambda, the loop exhausts any
fuel, returns the sentinel and uses exactly its fuel in iterations. -/
theorem vLoop_nan_forall {α : Type} {ops : Ops α} {nan : α} (env : Env α)
    (hall : ∀ Lambda, vStep ops env Lambda = StepResult.next nan) :
    ∀ (n : Nat) (Lambda : α),
      vLoop ops env n Lambda = ops.lit (-1) ∧ vLoopIters ops env n Lambda = n := by
  intro n
  induction n with
  | zero => intro Lambda; exact ⟨rfl, rfl⟩
  | succ n ih =>
    intro Lambda
    simp only [vLoop, vLoopIters, hall Lambda]
    exact ⟨(ih nan).1, by rw [(ih nan).2]⟩

/-- If the iteration started at NaN continues at NaN, the loop started at
NaN exhausts any fuel, returns the sentinel and uses all its fuel. -/
theorem vLoop_nan_self {α : Type} {ops : Ops α} {nan : α} (env : Env α)
    (hn : vStep ops env nan = StepResult.next nan) :
    ∀ n : Nat, vLoop ops env n nan = ops.lit (-1) ∧ vLoopIters ops env n nan = n := by
  intro n
  induction n with
  | zero => exact ⟨rfl, rfl⟩
  | succ n ih =>
    simp only [vLoop, vLoopIters, hn]
    exact ⟨ih.1, by rw [ih.2]⟩

/-- A NaN first latitude makes cosU1 NaN. -/
theorem mkEnv_cosU1_nan {α : Type} {ops : Ops α} {nan : α} (h : NanOps ops nan)
    (point1 point2 : LatLng α) (hc : point1.Latitude = nan) :
    (mkEnv ops point1 point2).cosU1 = nan := by
  simp only [mkEnv, radians]
  rw [hc, h.mulnl, h.divnl, h.tann, h.mulnr, h.atann, h.cosn]

/-- A NaN second latitude makes cosU2 NaN. -/
theorem mkEnv_cosU2_nan {α : Type} {ops : Ops α} {nan : α} (h : NanOps ops nan)
    (point1 point2 : LatLng α) (hc : point2.Latitude = nan) :
    (mkEnv ops point1 point2).cosU2 = nan := by
  simp only [mkEnv, radians]
  rw [hc, h.mulnl, h.divnl, h.tann, h.mulnr, h.atann, h.cosn]

/-- A NaN longitude on either input makes L NaN. -/
theorem mkEnv_L_nan {α : Type} {ops : Ops α} {nan : α} (h : NanOps ops nan)
    (point1 point2 : LatLng α)
    (hc : point1.Longitude = nan ∨ point2.Longitude = nan) :
    (mkEnv ops point1 point2).L = nan := by
  simp only [mkEnv, radians]
  rcases hc with hc | hc <;> rw [hc]
  · rw [h.subnr, h.mulnl, h.divnl]
  · rw [h.subnl, h.mulnl, h.divnl]

/-- Claim C9: if any coordinate of either input point is NaN, Inverse
returns the sentinel Distance(-1.0): the bit-identical short circuit
fails on NaN, neither early return in the loop ever fires, the loop runs
all 200 iterations, and the function falls through to the sentinel. -/
theorem C9_nan_input {α : Type} (ops : Ops α) (nan : α) (h : NanOps ops nan)
    (point1 point2 : LatLng α)
    (hc : point1.Latitude = nan ∨ point1.Longitude = nan ∨
      point2.Latitude = nan ∨ point2.Longitude = nan) :
    Inverse ops point1 point2 = ops.lit (-1) ∧ InverseIters ops point1 point2 = 200 := by
  have hcond : (ops.beq point1.Latitude point2.Latitude &&
      ops.beq point1.Longitude point2.Longitude) = false := by
    rcases hc with hc | hc | hc | hc <;> rw [hc]
    · rw [h.beqnl]; exact Bool.false_and _
    · rw [h.beqnl]; exact Bool.and_false _
    · rw [h.beqnr]; exact Bool.false_and _
    · rw [h.beqnr]; exact Bool.and_false _
  simp only [Inverse, InverseFuel, InverseIters, hcond, Bool.false_eq_true, if_false]
  rcases hc with hc | hc | hc | hc
  · exact vLoop_nan_forall _
      (fun l => vStep_nan h _ l (sinSigmaOf_nan_env h _ l
        (Or.inl (mkEnv_cosU1_nan h point1 point2 hc)))) 200 _
  · rw [mkEnv_L_nan h point1 point2 (Or.inl hc)]
    exact vLoop_nan_self _ (vStep_nan h _ nan (sinSigmaOf_nan_lambda h _)) 200
  · exact vLoop_nan_forall _
      (fun l => vStep_nan h _ l (sinSigmaOf_nan_env h _ l
        (Or.inr (mkEnv_cosU2_nan h point1 point2 hc)))) 200 _
  · rw [mkEnv_L_nan h point1 point2 (Or.inr hc)]
    exact vLoop_nan_self _ (vStep_nan h _ nan (sinSigmaOf_nan_lambda h _)) 200

/-- Witness for C9 at a concrete NaN input in the concrete NaN model. -/
theorem C9_nan_input_witness :
    Inverse fpOps ⟨none, some 0⟩ ⟨some 1, some 0⟩ = some (-1) ∧
      InverseIters fpOps ⟨none, some 0⟩ ⟨some 1, some 0⟩ = 200 :=
  C9_nan_input fpOps none fpOps_nanOps _ _ (Or.inl rfl)

/-- Every loop of vLoop executes at most as many iterations as its fuel. -/
theorem vLoopIters_le {α : Type} (ops : Ops α) (env : Env α) :
    ∀ (n : Nat) (Lambda : α), vLoopIters ops env n Lambda ≤ n := by
  intro n
  induction n with
  | zero => intro Lambda; simp [vLoopIters]
  | succ n ih =>
    intro Lambda
    simp only [vLoopIters]
    cases h : vStep ops env Lambda with
    | ret d =>
      show 1 ≤ n + 1
      omega
    | next l =>
      show vLoopIters ops env n l + 1 ≤ n + 1
      have := ih l
      omega

/-- Claim C3: for every input, Inverse terminates: the iteration loop
executes at most 200 iterations and the function always returns some
Distance value. -/
theorem C3_termination {α : Type} (ops : Ops α) (point1 point2 : LatLng α) :
    InverseIters ops point1 point2 ≤ 200 ∧ ∃ d : α, Inverse ops point1 point2 = d := by
  constructor
  · unfold InverseIters
    split
    · omega
    · exact vLoopIters_le ops _ 200 _
  · exact ⟨Inverse ops point1 point2, rfl⟩

/-- Claim C6: for every Distance value d (including the sentinel), Metres
is the identity, Kilometres, NauticalMiles, Miles and Feet divide the
metre value by 1000, 1852, 1609.344 and 0.3048 respectively, and the US
spellings Meters and Kilometers agree with Metres and Kilometres. -/
theorem C6_unit_conversions {α : Type} (ops : Ops α) (d : α) :
    Metres d = d ∧
    Meters d = Metres d ∧
    Kilometres ops d = ops.div (Metres d) (ops.lit 1000) ∧
    Kilometers ops d = Kilometres ops d ∧
    NauticalMiles ops d = ops.div (Metres d) (ops.lit 1852) ∧
    Miles ops d = ops.div (Metres d) (ops.lit (1609344 / 1000)) ∧
    Feet ops d = ops.div (Metres d) (ops.lit (3048 / 10000)) :=
  ⟨rfl, rfl, rfl, rfl, rfl, rfl, rfl⟩

/-- Computable rational stand-ins for the transcendental functions of the
math package (sin, cos, tan, atan, atan2, sqrt and the constant pi). -/
structure RealFns where
  sin : ℚ → ℚ
  cos : ℚ → ℚ
  tan : ℚ → ℚ
  atan : ℚ → ℚ
  atan2 : ℚ → ℚ → ℚ
  sqrt : ℚ → ℚ
  pi : ℚ

/-- Go math.Round rounds half away from zero; its integer value on an exact
rational argument. -/
def goRoundInt (q : ℚ) : ℤ :=
  if q < 0 then -(round (-q)) else round q

/-- math.Round on an exact rational argument. -/
def goRound (q : ℚ) : ℚ := ((goRoundInt q : ℤ) : ℚ)

/-- The operation record over exact rationals: field arithmetic is exact,
rounding is the half-away-from-zero rounding of math.Round, comparisons
are the rational order, and the transcendental functions are supplied by
a RealFns record. -/
def ratOps (t : RealFns) : Ops ℚ where
  lit q := q
  pi := t.pi
  add := (· + ·)
  sub := (· - ·)
  mul := (· * ·)
  div := (· / ·)
  sin := t.sin
  cos := t.cos
  tan := t.tan
  atan := t.atan
  atan2 := t.atan2
  sqrt := t.sqrt
  abs := fun q => |q|
  round := goRound
  beq x y := decide (x = y)
  blt x y := decide (x < y)

/-- Dividing a rounded value by 1000 yields an integer multiple of
1/1000. -/
theorem goRound_div_1000 (q : ℚ) : ∃ k : ℤ, goRound q / 1000 = (k : ℚ) / 1000 :=
  ⟨goRoundInt q, rfl⟩

/-- In the exact rational model, every value a loop iteration returns is
an integer multiple of 1/1000. -/
theorem ratOps_step_ret (t : RealFns) (env : Env ℚ) (Lambda d : ℚ)
    (h : vStep (ratOps t) env Lambda = StepResult.ret d) :
    ∃ k : ℤ, d = (k : ℚ) / 1000 := by
  simp only [vStep] at h
  split at h
  · injection h with h
    exact ⟨0, by rw [← h]; norm_num [ratOps]⟩
  · split at h
    · injection h with h
      rw [← h]
      exact goRound_div_1000 _
    · cases h

/-- In the exact rational model, the value of the loop is an integer
multiple of 1/1000 for any fuel and any starting Lambda. -/
theorem ratOps_vLoop_millimetre (t : RealFns) (env : Env ℚ) :
    ∀ (n : Nat) (Lambda : ℚ), ∃ k : ℤ, vLoop (ratOps t) env n Lambda = (k : ℚ) / 1000 := by
  intro n
  induction n with
  | zero =>
    intro Lambda
    exact ⟨-1000, by norm_num [vLoop, ratOps]⟩
  | succ n ih =>
    intro Lambda
    simp only [vLoop]
    cases hv : vStep (ratOps t) env Lambda with
    | ret d => exact ratOps_step_ret t env Lambda d hv
    | next l => exact ih l

/-- Claim C8: in the exact-arithmetic model every value returned by
Inverse is an integer multiple of 0.001 metres (the sentinels 0.0 and
-1.0 included, as 0/1000 and -1000/1000): the convergence path computes
s = b*A*(sigma - deltaSigma) and returns round(s * 1000) / 1000. -/
theorem C8_millimetre_multiple (t : RealFns) (point1 point2 : LatLng ℚ) :
    ∃ k : ℤ, Inverse (ratOps t) point1 point2 = (k : ℚ) / 1000 := by
  simp only [Inverse, InverseFuel]
  split
  · exact ⟨0, by norm_num [ratOps]⟩
  · exact ratOps_vLoop_millimetre t _ 200 _

/-- When the iterated step never returns within the fuel, the loop value
is the sentinel -1. -/
theorem iterSteps_no_ret {α : Type} (ops : Ops α) (env : Env α) :
    ∀ (n : Nat) (Lambda : α), (iterSteps ops env n Lambda).isRet = false →
      vLoop ops env n Lambda = ops.lit (-1) := by
  intro n
  induction n with
  | zero => intro Lambda _; rfl
  | succ n ih =>
    intro Lambda h
    simp only [iterSteps] at h
    simp only [vLoop]
    cases hv : vStep ops env Lambda with
    | ret d => rw [hv] at h; cases h
    | next l =>
      rw [hv] at h
      exact ih l h

/-- Claim C1: if the bit-identity short circuit does not fire and the
loop runs all 200 iterations without the convergence check or the
sinSigma == 0 check ever succeeding, Inverse returns the sentinel
Distance(-1.0); the sentinel is an ordinary return value of the total
function, not an exception. -/
theorem C1_nonconvergence_sentinel {α : Type} (ops : Ops α) (point1 point2 : LatLng α)
    (h0 : (ops.beq point1.Latitude point2.Latitude &&
      ops.beq point1.Longitude point2.Longitude) = false)
    (h1 : (iterSteps ops (mkEnv ops point1 point2) 200
      (mkEnv ops point1 point2).L).isRet = false) :
    Inverse ops point1 point2 = ops.lit (-1) := by
  simp only [Inverse, InverseFuel, h0, Bool.false_eq_true, if_false]
  exact iterSteps_no_ret ops _ 200 _ h1

/-- Witness for C1: a run in the NaN model that never converges. -/
theorem C1_nonconvergence_sentinel_witness :
    Inverse fpOps ⟨none, some 1⟩ ⟨some 2, some 3⟩ = some (-1) :=
  C1_nonconvergence_sentinel fpOps ⟨none, some 1⟩ ⟨some 2, some 3⟩ (by with_unfolding_all decide) (by with_unfolding_all decide)

/-- Counterexample to C2 as stated: a point P with a NaN latitude has
bit-identical fields in both arguments, yet Inverse(P, P) is the -1.0
sentinel, not 0, because the Go float comparison NaN == NaN is false. -/
theorem C2_counterexample :
    Inverse fpOps ⟨none, some 0⟩ ⟨none, some 0⟩ ≠ fpOps.lit 0 := by with_unfolding_all decide

/-- Claim C2 as amended: for any point P both of whose coordinates
compare equal to themselves (every non-NaN float does), Inverse(P, P)
returns 0 exactly, before any iteration: the result is 0 whatever the
iteration budget, including a budget of zero. -/
theorem C2_identity_amended {α : Type} (ops : Ops α) (n : Nat) (P : LatLng α)
    (h1 : ops.beq P.Latitude P.Latitude = true)
    (h2 : ops.beq P.Longitude P.Longitude = true) :
    InverseFuel ops n P P = ops.lit 0 := by
  simp only [InverseFuel, h1, h2, Bool.and_self, if_true]

/-- Witness for the amended C2 at a concrete point with zero fuel. -/
theorem C2_identity_amended_witness :
    InverseFuel fpOps 0 ⟨some 5, some 7⟩ ⟨some 5, some 7⟩ = fpOps.lit 0 :=
  C2_identity_amended fpOps 0 ⟨some 5, some 7⟩ (by with_unfolding_all decide) (by with_unfolding_all decide)

/-- Claim C7: inside every loop iteration both divisions are guarded: a
zero sinSigma makes the iteration return Distance(0) before sinSigma is
used as a divisor, and a zero cosSqAlpha makes cos2SigmaM the constant 0
rather than the expression dividing by cosSqAlpha. -/
theorem C7_division_guards {α : Type} (ops : Ops α) (env : Env α) (Lambda : α) :
    (ops.beq (sinSigmaOf ops env Lambda) (ops.lit 0) = true →
      vStep ops env Lambda = StepResult.ret (ops.lit 0)) ∧
    (ops.beq (cosSqAlphaOf ops env Lambda) (ops.lit 0) = true →
      cos2SigmaMOf ops env Lambda = ops.lit 0) := by
  constructor
  · intro h
    simp only [vStep, h, if_true]
  · intro h
    simp only [cos2SigmaMOf, h, if_true]

/-- A trivial transcendental record over rationals, used to evaluate the
division guards on concrete loop states. -/
def idFns : RealFns where
  sin := id
  cos := id
  tan := id
  atan := id
  atan2 := fun x _ => x
  sqrt := id
  pi := 3

/-- A concrete loop environment on the equator of the auxiliary sphere. -/
def eqEnv : Env ℚ where
  sinU1 := 0
  cosU1 := 1
  sinU2 := 0
  cosU2 := 1
  L := 0

/-- Witness for C7: both guards fire on concrete loop states of the
rational model. -/
theorem C7_division_guards_witness :
    vStep (ratOps idFns) eqEnv 0 = StepResult.ret ((ratOps idFns).lit 0) ∧
      cos2SigmaMOf (ratOps idFns) eqEnv 1 = (ratOps idFns).lit 0 :=
  ⟨(C7_division_guards (ratOps idFns) eqEnv 0).1 (by with_unfolding_all decide),
    (C7_division_guards (ratOps idFns) eqEnv 1).2 (by with_unfolding_all decide)⟩

end Vincenty
